import Mathlib

/-!
Verification of the FlowState dashboard core: the footprint calculator
(`stats` in `src/components/Dashboard.tsx` together with `WATER_METRICS`
from the constants module) and the submission-window / streak tracker
(`isNewDay`, `isNewWeek`, `calculateStreak`, `handleDailySubmit`,
`handleWeeklySubmit`, `handleDailyInputChange`, `handleWeeklyInputChange`).

Numbers entered by the user and the fixed gallon rates are embedded as
exact rationals (`ℚ`).  Timestamps are embedded as integer milliseconds
since an epoch, and calendar dates as integer day numbers, so that the
JavaScript date arithmetic (`toDateString` comparison, millisecond
difference floored to days) becomes exact integer arithmetic.
-/

namespace FlowState

/-! Fixed per-unit rates from the constants module (`WATER_METRICS`). -/

namespace WATER_METRICS

def SHOWER_GPM : ℚ := 2.1
def BATH_GPB : ℚ := 40
def FAUCET_GPM : ℚ := 1.5
def FLUSH_GPF : ℚ := 1.6
def LAUNDRY_GPL : ℚ := 30
def DISHWASHER_GPC : ℚ := 6
def GARDEN_GPM : ℚ := 12
def CLOTHING_AVG_GPI : ℚ := 1400
def DIET_MEAT_GPM : ℚ := 450
def FUEL_GPM : ℚ := 0.5
def AI_QUERY_GPQ : ℚ := 0.13
def RECYCLING_CREDIT : ℚ := -5
def COMPOST_CREDIT : ℚ := -15

end WATER_METRICS

/-- Fixed national weekly baseline (`BASELINE_CANADIAN_WEEKLY`). -/
def BASELINE_CANADIAN_WEEKLY : ℚ := 4200

/-- Daily hygiene inputs (`DailyHygieneMetrics` in `types.ts`). -/
structure DailyHygieneMetrics where
  showerMinutes : ℚ
  baths : ℚ
  faucetMinutes : ℚ
  flushes : ℚ
deriving DecidableEq

/-- Weekly household and lifestyle inputs (`WeeklyUsageMetrics`). -/
structure WeeklyUsageMetrics where
  laundryLoads : ℚ
  dishwasherLoads : ℚ
  gardenMinutes : ℚ
  meatMeals : ℚ
  newClothingItems : ℚ
  milesDriven : ℚ
  recyclingItems : ℚ
  compostLbs : ℚ
  aiQueries : ℚ
deriving DecidableEq

/-- The combined thirteen raw counters (`WaterUsageMetrics` in `types.ts`). -/
structure WaterUsageMetrics where
  showerMinutes : ℚ
  baths : ℚ
  faucetMinutes : ℚ
  flushes : ℚ
  laundryLoads : ℚ
  dishwasherLoads : ℚ
  gardenMinutes : ℚ
  meatMeals : ℚ
  newClothingItems : ℚ
  milesDriven : ℚ
  recyclingItems : ℚ
  compostLbs : ℚ
  aiQueries : ℚ
deriving DecidableEq

/-- The spread `{ ...dailyInputs, ...weeklyInputs }` building the combined
inputs record in the dashboard. -/
def combineInputs (d : DailyHygieneMetrics) (w : WeeklyUsageMetrics) :
    WaterUsageMetrics where
  showerMinutes := d.showerMinutes
  baths := d.baths
  faucetMinutes := d.faucetMinutes
  flushes := d.flushes
  laundryLoads := w.laundryLoads
  dishwasherLoads := w.dishwasherLoads
  gardenMinutes := w.gardenMinutes
  meatMeals := w.meatMeals
  newClothingItems := w.newClothingItems
  milesDriven := w.milesDriven
  recyclingItems := w.recyclingItems
  compostLbs := w.compostLbs
  aiQueries := w.aiQueries

/-- JavaScript `Math.round`: half-way values round toward positive
infinity, so `Math.round x = ⌊x + 1/2⌋`. -/
def jsRound (x : ℚ) : ℤ := ⌊x + 1 / 2⌋

/-- `Math.max(1, user.householdSize || 1)`: an absent household size is
`none`; the JavaScript `|| 1` replaces the falsy value `0` by `1`. -/
def householdDivisor (householdSize : Option ℚ) : ℚ :=
  max 1 (match householdSize with
    | none => 1
    | some h => if h = 0 then 1 else h)

/-- Result record of the calculation engine (the `stats` memo). -/
structure FootprintStats where
  showerWeekly : ℚ
  bathWeekly : ℚ
  faucetWeekly : ℚ
  toiletWeekly : ℚ
  laundryWeekly : ℚ
  dishwasherWeekly : ℚ
  gardenWeekly : ℚ
  clothingWeekly : ℚ
  dietWeekly : ℚ
  transportWeekly : ℚ
  aiWeekly : ℚ
  recyclingWeekly : ℚ
  compostWeekly : ℚ
  directTotal : ℚ
  virtualTotal : ℚ
  grandTotal : ℚ
  trend : ℚ
  score : ℤ
deriving DecidableEq

/-- The calculation engine: the body of the `stats` memo in
`Dashboard.tsx`, line for line. -/
def calcStats (inputs : WaterUsageMetrics) (householdSize : Option ℚ) :
    FootprintStats :=
  let hd := householdDivisor householdSize
  let showerWeekly := inputs.showerMinutes * WATER_METRICS.SHOWER_GPM * 7
  let bathWeekly := inputs.baths * WATER_METRICS.BATH_GPB
  let faucetWeekly := inputs.faucetMinutes * WATER_METRICS.FAUCET_GPM * 7
  let toiletWeekly := inputs.flushes * WATER_METRICS.FLUSH_GPF * 7
  let laundryWeekly := inputs.laundryLoads * WATER_METRICS.LAUNDRY_GPL / hd
  let dishwasherWeekly := inputs.dishwasherLoads * WATER_METRICS.DISHWASHER_GPC / hd
  let gardenWeekly := inputs.gardenMinutes * WATER_METRICS.GARDEN_GPM / hd
  let clothingWeekly := inputs.newClothingItems * WATER_METRICS.CLOTHING_AVG_GPI
  let dietWeekly := inputs.meatMeals * WATER_METRICS.DIET_MEAT_GPM
  let transportWeekly := inputs.milesDriven * WATER_METRICS.FUEL_GPM
  let aiWeekly := inputs.aiQueries * WATER_METRICS.AI_QUERY_GPQ
  let recyclingWeekly := inputs.recyclingItems * WATER_METRICS.RECYCLING_CREDIT
  let compostWeekly := inputs.compostLbs * WATER_METRICS.COMPOST_CREDIT
  let directTotal := showerWeekly + bathWeekly + faucetWeekly + toiletWeekly +
    laundryWeekly + dishwasherWeekly + gardenWeekly
  let virtualTotal := clothingWeekly + dietWeekly + transportWeekly + aiWeekly +
    recyclingWeekly + compostWeekly
  let grandTotal := directTotal + virtualTotal
  let trend := (grandTotal - BASELINE_CANADIAN_WEEKLY) / BASELINE_CANADIAN_WEEKLY * 100
  let rawScore := 100 - (grandTotal - 1500) / 40
  let score := max 0 (min 100 (jsRound rawScore))
  { showerWeekly := showerWeekly
    bathWeekly := bathWeekly
    faucetWeekly := faucetWeekly
    toiletWeekly := toiletWeekly
    laundryWeekly := laundryWeekly
    dishwasherWeekly := dishwasherWeekly
    gardenWeekly := gardenWeekly
    clothingWeekly := clothingWeekly
    dietWeekly := dietWeekly
    transportWeekly := transportWeekly
    aiWeekly := aiWeekly
    recyclingWeekly := recyclingWeekly
    compostWeekly := compostWeekly
    directTotal := directTotal
    virtualTotal := virtualTotal
    grandTotal := grandTotal
    trend := trend
    score := score }

/-- The worked example input of the specification (also the dashboard default inputs). -/
def exampleInputs : WaterUsageMetrics where
  showerMinutes := 8
  baths := 1
  faucetMinutes := 5
  flushes := 5
  laundryLoads := 4
  dishwasherLoads := 5
  gardenMinutes := 15
  meatMeals := 7
  newClothingItems := 1
  milesDriven := 100
  recyclingItems := 5
  compostLbs := 2
  aiQueries := 20

/-! The submission-window helpers and the streak tracker.  A timestamp is
an integer count of milliseconds; a calendar date string is modelled by
the integer day number of the timestamp (floor division by the length of
a day), so two timestamps have equal `toDateString` exactly when they
have equal day numbers. -/

/-- Milliseconds in one day. -/
def msPerDay : ℤ := 24 * 60 * 60 * 1000

/-- Milliseconds in one week (`oneWeekMs` in the dashboard). -/
def oneWeekMs : ℤ := 7 * 24 * 60 * 60 * 1000

/-- The local calendar day of a timestamp, modelling
`new Date(t).toDateString()`. -/
def toLocalDay (t : ℤ) : ℤ := t / msPerDay

/-- `isNewDay`: true when `lastUpdated` is absent or its calendar date
differs from the calendar date of `now`. -/
def isNewDay (lastUpdated : Option ℤ) (now : ℤ) : Bool :=
  match lastUpdated with
  | none => true
  | some t => toLocalDay t != toLocalDay now

/-- `isNewWeek`: false when `lastUpdated` is absent, otherwise true when
more than seven days of milliseconds have passed. -/
def isNewWeek (lastUpdated : Option ℤ) (now : ℤ) : Bool :=
  match lastUpdated with
  | none => false
  | some t => decide (oneWeekMs < now - t)

/-- Persisted per-user streak record (`streakData`).  The calendar date
string `lastLogDate` is an integer day number; the empty string (falsy in
the source) is `none`. -/
structure StreakData where
  currentStreak : ℕ
  longestStreak : ℕ
  lastLogDate : Option ℤ
  totalPoints : ℕ
deriving DecidableEq

/-- The initial streak record of a user with no history. -/
def initialStreakData : StreakData where
  currentStreak := 0
  longestStreak := 0
  lastLogDate := none
  totalPoints := 0

/-- `calculateStreak` from `Dashboard.tsx`: given the stored last log
date, the stored streak and the current day, return the new current
streak and the `isConsecutive` flag.  `diffDays` is the calendar-day
difference. -/
def calculateStreak (lastLogDate : Option ℤ) (currentStreakFromDB : ℕ)
    (today : ℤ) : ℕ × Bool :=
  match lastLogDate with
  | none => (1, false)
  | some lastLog =>
    let diffDays := today - lastLog
    if diffDays = 0 then (currentStreakFromDB, true)
    else if diffDays = 1 then (currentStreakFromDB + 1, true)
    else (1, false)

/-- Result of a `recordLog` attempt: refused as a same-day duplicate, or
the updated streak record. -/
inductive LogResult where
  | alreadyLogged : LogResult
  | ok : StreakData → LogResult
deriving DecidableEq

/-- The streak-evolution core of `handleDailySubmit` (named recordLog in the specification): refuse a same-day duplicate, otherwise compute the new
streak via `calculateStreak`, update the longest streak, add one point
and stamp today as the last log date. -/
def recordLog (s : StreakData) (today : ℤ) : LogResult :=
  if s.lastLogDate = some today then .alreadyLogged
  else
    let currentStreak := (calculateStreak s.lastLogDate s.currentStreak today).1
    let longestStreak := max currentStreak s.longestStreak
    .ok { currentStreak := currentStreak
          longestStreak := longestStreak
          lastLogDate := some today
          totalPoints := s.totalPoints + 1 }

/-- The in-memory dashboard state touched by the submit and edit
handlers. -/
structure DashState where
  dailyInputs : DailyHygieneMetrics
  weeklyInputs : WeeklyUsageMetrics
  isDailySubmitted : Bool
  isWeeklySubmitted : Bool
  streakData : StreakData
  householdSize : Option ℚ
  monthlyUsage : ℤ
deriving DecidableEq

/-- Outcome a submit handler reports to the user. -/
inductive SubmitOutcome where
  | success : SubmitOutcome
  | duplicate : SubmitOutcome
  | saveFailed : SubmitOutcome
deriving DecidableEq

/-- `handleDailySubmit`: refuse a same-day duplicate before anything
else; otherwise attempt the two persistence writes (daily-hygiene row,
then streak row, each with an externally determined outcome) and commit
the new in-memory state only after both succeed. -/
def handleDailySubmit (st : DashState) (today : ℤ)
    (dailySaveOk streakSaveOk : Bool) : DashState × SubmitOutcome :=
  match recordLog st.streakData today with
  | .alreadyLogged => (st, .duplicate)
  | .ok newStreak =>
    if dailySaveOk = false then (st, .saveFailed)
    else if streakSaveOk = false then (st, .saveFailed)
    else ({ st with isDailySubmitted := true, streakData := newStreak },
          .success)

/-- `handleWeeklySubmit`: compute the new monthly usage from the current
stats, attempt the two persistence writes (dashboard row, then public
profile) and commit the new in-memory state only after both succeed. -/
def handleWeeklySubmit (st : DashState)
    (dashboardSaveOk profileSaveOk : Bool) : DashState × SubmitOutcome :=
  let combined := combineInputs st.dailyInputs st.weeklyInputs
  let newMonthlyUsage := jsRound ((calcStats combined st.householdSize).grandTotal * 4)
  if dashboardSaveOk = false then (st, .saveFailed)
  else if profileSaveOk = false then (st, .saveFailed)
  else ({ st with isWeeklySubmitted := true, monthlyUsage := newMonthlyUsage },
        .success)

/-- Names of the daily input fields. -/
inductive DailyField where
  | showerMinutes | baths | faucetMinutes | flushes
deriving DecidableEq

/-- Functional update of one daily input field. -/
def setDailyField (m : DailyHygieneMetrics) : DailyField → ℚ → DailyHygieneMetrics
  | .showerMinutes, v => { m with showerMinutes := v }
  | .baths, v => { m with baths := v }
  | .faucetMinutes, v => { m with faucetMinutes := v }
  | .flushes, v => { m with flushes := v }

/-- Names of the weekly input fields. -/
inductive WeeklyField where
  | laundryLoads | dishwasherLoads | gardenMinutes | meatMeals
  | newClothingItems | milesDriven | recyclingItems | compostLbs | aiQueries
deriving DecidableEq

/-- Functional update of one weekly input field. -/
def setWeeklyField (m : WeeklyUsageMetrics) : WeeklyField → ℚ → WeeklyUsageMetrics
  | .laundryLoads, v => { m with laundryLoads := v }
  | .dishwasherLoads, v => { m with dishwasherLoads := v }
  | .gardenMinutes, v => { m with gardenMinutes := v }
  | .meatMeals, v => { m with meatMeals := v }
  | .newClothingItems, v => { m with newClothingItems := v }
  | .milesDriven, v => { m with milesDriven := v }
  | .recyclingItems, v => { m with recyclingItems := v }
  | .compostLbs, v => { m with compostLbs := v }
  | .aiQueries, v => { m with aiQueries := v }

/-- `handleDailyInputChange`: store the edited daily field and, when the
daily log was marked submitted, reset that flag. -/
def handleDailyInputChange (st : DashState) (f : DailyField) (v : ℚ) : DashState :=
  { st with dailyInputs := setDailyField st.dailyInputs f v,
            isDailySubmitted := if st.isDailySubmitted then false
                                else st.isDailySubmitted }

/-- `handleWeeklyInputChange`: store the edited weekly field and, when
the weekly log was marked submitted, reset that flag. -/
def handleWeeklyInputChange (st : DashState) (f : WeeklyField) (v : ℚ) : DashState :=
  { st with weeklyInputs := setWeeklyField st.weeklyInputs f v,
            isWeeklySubmitted := if st.isWeeklySubmitted then false
                                 else st.isWeeklySubmitted }

/-! Helper lemmas about the streak tracker, shared by the claim
theorems below. -/

/-- When the stored last log date is not today, the new streak is at
least one: the same-day branch of `calculateStreak` is unreachable. -/
lemma calculateStreak_one_le (lastLogDate : Option ℤ) (cur : ℕ) (today : ℤ)
    (h : lastLogDate ≠ some today) :
    1 ≤ (calculateStreak lastLogDate cur today).1 := by
  match lastLogDate with
  | none => simp [calculateStreak]
  | some d =>
    have hd : ¬(today - d = 0) := by
      intro h0
      exact h (by simp [show d = today by omega])
    simp only [calculateStreak, hd, if_false]
    by_cases h1 : today - d = 1 <;> simp [h1]

/-- When the stored last log date is not today, `recordLog` succeeds and
returns exactly the record built from `calculateStreak`. -/
lemma recordLog_eq_ok (s : StreakData) (today : ℤ)
    (h : s.lastLogDate ≠ some today) :
    recordLog s today =
      .ok { currentStreak := (calculateStreak s.lastLogDate s.currentStreak today).1
            longestStreak := max (calculateStreak s.lastLogDate s.currentStreak today).1
              s.longestStreak
            lastLogDate := some today
            totalPoints := s.totalPoints + 1 } := by
  simp [recordLog, h]

/-- Inversion of a successful `recordLog` call. -/
lemma recordLog_ok_elim {s s1 : StreakData} {today : ℤ}
    (h : recordLog s today = .ok s1) :
    s.lastLogDate ≠ some today ∧
    s1.currentStreak = (calculateStreak s.lastLogDate s.currentStreak today).1 ∧
    s1.longestStreak = max s1.currentStreak s.longestStreak ∧
    s1.lastLogDate = some today ∧
    s1.totalPoints = s.totalPoints + 1 := by
  by_cases hd : s.lastLogDate = some today
  · simp [recordLog, hd] at h
  · rw [recordLog_eq_ok s today hd] at h
    obtain rfl : s1 = _ := (LogResult.ok.injEq _ _).mp h.symm
    exact ⟨hd, rfl, rfl, rfl, rfl⟩

/-- After a successful `recordLog`, the current streak is at least 1. -/
lemma recordLog_ok_one_le {s s1 : StreakData} {today : ℤ}
    (h : recordLog s today = .ok s1) : 1 ≤ s1.currentStreak := by
  obtain ⟨hne, hcur, -, -, -⟩ := recordLog_ok_elim h
  rw [hcur]
  exact calculateStreak_one_le _ _ _ hne

/-- C2: for every streak record whose stored last log date is not today,
`recordLog` succeeds; an absent last log date yields streak 1, a last log
exactly one day earlier increments the streak, a gap of more than one day
resets it to 1; the longest streak becomes the maximum of the new streak
and the prior longest, total points grow by one and the last log date
becomes today.  Moreover logs on consecutive days D, D+1, D+2 from no
history yield streaks 1, 2, 3, and a log on day D followed by one on
day D+5 resets the streak to 1 while retaining the longest streak. -/
theorem c2_recordLog_evolution (s : StreakData) (today : ℤ)
    (hne : s.lastLogDate ≠ some today) :
    (∃ s1, recordLog s today = .ok s1 ∧
      (s.lastLogDate = none → s1.currentStreak = 1) ∧
      (s.lastLogDate = some (today - 1) →
        s1.currentStreak = s.currentStreak + 1) ∧
      (∀ d, s.lastLogDate = some d → 1 < today - d → s1.currentStreak = 1) ∧
      s1.longestStreak = max s1.currentStreak s.longestStreak ∧
      s1.totalPoints = s.totalPoints + 1 ∧
      s1.lastLogDate = some today) ∧
    (∀ D : ℤ, ∃ t1 t2 t3,
      recordLog initialStreakData D = .ok t1 ∧ t1.currentStreak = 1 ∧
      recordLog t1 (D + 1) = .ok t2 ∧ t2.currentStreak = 2 ∧
      recordLog t2 (D + 2) = .ok t3 ∧ t3.currentStreak = 3) ∧
    (∀ (s0 u1 : StreakData) (D : ℤ), recordLog s0 D = .ok u1 →
      ∃ u2, recordLog u1 (D + 5) = .ok u2 ∧ u2.currentStreak = 1 ∧
        u2.longestStreak = u1.longestStreak) := by
  refine ⟨?_, ?_, ?_⟩
  · refine ⟨_, recordLog_eq_ok s today hne, ?_, ?_, ?_, rfl, rfl, rfl⟩
    · intro h0
      simp [calculateStreak, h0]
    · intro h1
      have : today - (today - 1) = 1 := by ring
      simp [calculateStreak, h1, this]
    · intro d hd hgap
      have h0 : ¬(today - d = 0) := by omega
      have h1 : ¬(today - d = 1) := by omega
      simp [calculateStreak, hd, h0, h1]
  · intro D
    have e1 : recordLog initialStreakData D = .ok ⟨1, 1, some D, 1⟩ := by
      simp [recordLog, initialStreakData, calculateStreak]
    have hne2 : some D ≠ some (D + 1) := by simp
    have e2 : recordLog (⟨1, 1, some D, 1⟩ : StreakData) (D + 1) =
        .ok ⟨2, 2, some (D + 1), 2⟩ := by
      have : D + 1 - D = 1 := by ring
      simp [recordLog, calculateStreak, hne2, this]
    have hne3 : some (D + 1) ≠ some (D + 2) := by simp
    have e3 : recordLog (⟨2, 2, some (D + 1), 2⟩ : StreakData) (D + 2) =
        .ok ⟨3, 3, some (D + 2), 3⟩ := by
      have : D + 2 - (D + 1) = 1 := by ring
      simp [recordLog, calculateStreak, hne3, this]
    exact ⟨_, _, _, e1, rfl, e2, rfl, e3, rfl⟩
  · intro s0 u1 D hlog
    obtain ⟨hne0, hcur, hlong, hdate, -⟩ := recordLog_ok_elim hlog
    have hone : 1 ≤ u1.currentStreak := recordLog_ok_one_le hlog
    have hlone : 1 ≤ u1.longestStreak := by
      rw [hlong]; exact le_trans hone (le_max_left _ _)
    have hneu : u1.lastLogDate ≠ some (D + 5) := by
      rw [hdate]; simp
    have hc5 : (calculateStreak u1.lastLogDate u1.currentStreak (D + 5)).1 = 1 := by
      have h0 : ¬(D + 5 - D = 0) := by omega
      have h1 : ¬(D + 5 - D = 1) := by omega
      simp [calculateStreak, hdate, h0, h1]
    refine ⟨_, recordLog_eq_ok u1 (D + 5) hneu, ?_, ?_⟩
    · simp [hc5]
    · simp [hc5, max_eq_right hlone]

/-- C2 witness: the general evolution law applied to the initial record
on day 0. -/
theorem c2_recordLog_evolution_witness :
    initialStreakData.lastLogDate ≠ some 0 ∧
    ∃ s1, recordLog initialStreakData 0 = .ok s1 ∧ s1.currentStreak = 1 ∧
      s1.totalPoints = 1 ∧ s1.lastLogDate = some 0 := by
  refine ⟨by decide, ?_⟩
  obtain ⟨⟨s1, hok, hnone, -, -, -, hpts, hdate⟩, -, -⟩ :=
    c2_recordLog_evolution initialStreakData 0 (by decide)
  exact ⟨s1, hok, hnone rfl, hpts, hdate⟩

/-- C3: a submission whose stored last log date already equals today is
refused as a duplicate without touching the state, and a second submit on
the same day after a successful one is likewise refused unchanged. -/
theorem c3_duplicate_guard (st : DashState) (today : ℤ) (w1 w2 : Bool) :
    (st.streakData.lastLogDate = some today →
      handleDailySubmit st today w1 w2 = (st, .duplicate)) ∧
    (∀ st1, handleDailySubmit st today true true = (st1, .success) →
      handleDailySubmit st1 today w1 w2 = (st1, .duplicate)) := by
  constructor
  · intro hdup
    simp [handleDailySubmit, recordLog, hdup]
  · intro st1 h
    rcases hrec : recordLog st.streakData today with _ | ns
    · simp [handleDailySubmit, hrec] at h
    · simp only [handleDailySubmit, hrec] at h
      simp at h
      obtain ⟨-, -, -, hdate, -⟩ := recordLog_ok_elim hrec
      have hst1 : st1.streakData = ns := by rw [← h]
      simp [handleDailySubmit, recordLog, hst1, hdate]

/-- C3 witness: the guard refuses a same-day duplicate on a concrete
state. -/
theorem c3_duplicate_guard_witness :
    (⟨⟨8, 0, 5, 5⟩, ⟨4, 5, 15, 7, 1, 100, 5, 2, 20⟩, false, false,
        ⟨2, 3, some 0, 10⟩, some 1, 0⟩ : DashState).streakData.lastLogDate =
      some 0 ∧
    handleDailySubmit
      ⟨⟨8, 0, 5, 5⟩, ⟨4, 5, 15, 7, 1, 100, 5, 2, 20⟩, false, false,
        ⟨2, 3, some 0, 10⟩, some 1, 0⟩ 0 true true =
      (⟨⟨8, 0, 5, 5⟩, ⟨4, 5, 15, 7, 1, 100, 5, 2, 20⟩, false, false,
        ⟨2, 3, some 0, 10⟩, some 1, 0⟩, .duplicate) :=
  ⟨rfl, (c3_duplicate_guard _ 0 true true).1 rfl⟩

/-- C6: after every successful `recordLog` the current streak is at
least 1, a gap of more than one day gives exactly 1, the longest streak
never decreases and is at least the new current streak. -/
theorem c6_streak_invariants (s s1 : StreakData) (today : ℤ)
    (h : recordLog s today = .ok s1) :
    1 ≤ s1.currentStreak ∧
    (∀ d, s.lastLogDate = some d → 1 < today - d → s1.currentStreak = 1) ∧
    s.longestStreak ≤ s1.longestStreak ∧
    s1.currentStreak ≤ s1.longestStreak := by
  obtain ⟨hne, hcur, hlong, -, -⟩ := recordLog_ok_elim h
  refine ⟨recordLog_ok_one_le h, ?_, ?_, ?_⟩
  · intro d hd hgap
    have h0 : ¬(today - d = 0) := by omega
    have h1 : ¬(today - d = 1) := by omega
    rw [hcur]
    simp [calculateStreak, hd, h0, h1]
  · rw [hlong]; exact le_max_right _ _
  · rw [hlong]; exact le_max_left _ _

/-- C6 witness: the invariants hold for the first log of a fresh user. -/
theorem c6_streak_invariants_witness :
    1 ≤ (⟨1, 1, some 0, 1⟩ : StreakData).currentStreak ∧
    (⟨1, 1, some 0, 1⟩ : StreakData).currentStreak ≤
      (⟨1, 1, some 0, 1⟩ : StreakData).longestStreak := by
  have h := c6_streak_invariants ⟨0, 0, none, 0⟩ ⟨1, 1, some 0, 1⟩ 0 (by decide)
  exact ⟨h.1, h.2.2.2⟩

/-- C10: when the stored last log date lies in the future of today
(negative calendar-day difference), `calculateStreak` takes the
streak-broken branch and returns exactly 1; indeed every day difference
other than 0 or 1 resets the streak to 1. -/
theorem c10_negative_gap_resets (s : StreakData) (today d : ℤ) (cur : ℕ)
    (hdate : s.lastLogDate = some d) (hlt : today < d) :
    calculateStreak s.lastLogDate s.currentStreak today = (1, false) ∧
    (∀ e : ℤ, today - e ≠ 0 → today - e ≠ 1 →
      (calculateStreak (some e) cur today).1 = 1) := by
  constructor
  · have h0 : ¬(today - d = 0) := by omega
    have h1 : ¬(today - d = 1) := by omega
    simp [calculateStreak, hdate, h0, h1]
  · intro e h0 h1
    simp [calculateStreak, h0, h1]

/-- C1 counterexample: on the worked example input of the specification the
claimed score of 0 is wrong; the computed score is not 0 (it is 9). -/
theorem c1_example_score_ne_zero :
    (calcStats exampleInputs (some 1)).score ≠ 0 := by
  norm_num [calcStats, exampleInputs, householdDivisor, jsRound,
    BASELINE_CANADIAN_WEEKLY, WATER_METRICS.SHOWER_GPM, WATER_METRICS.BATH_GPB,
    WATER_METRICS.FAUCET_GPM, WATER_METRICS.FLUSH_GPF, WATER_METRICS.LAUNDRY_GPL,
    WATER_METRICS.DISHWASHER_GPC, WATER_METRICS.GARDEN_GPM,
    WATER_METRICS.CLOTHING_AVG_GPI, WATER_METRICS.DIET_MEAT_GPM,
    WATER_METRICS.FUEL_GPM, WATER_METRICS.AI_QUERY_GPQ,
    WATER_METRICS.RECYCLING_CREDIT, WATER_METRICS.COMPOST_CREDIT]

/-- C1 (amended): on the worked example input the calculator produces the
claimed per-category weekly gallons, direct, virtual and grand totals,
and a trend within 0.005 of +22.47 percent; the score however is 9, not
the claimed clamp to 0. -/
theorem c1_example_breakdown :
    (calcStats exampleInputs (some 1)).showerWeekly = 117.6 ∧
    (calcStats exampleInputs (some 1)).bathWeekly = 40 ∧
    (calcStats exampleInputs (some 1)).faucetWeekly = 52.5 ∧
    (calcStats exampleInputs (some 1)).toiletWeekly = 56 ∧
    (calcStats exampleInputs (some 1)).laundryWeekly = 120 ∧
    (calcStats exampleInputs (some 1)).dishwasherWeekly = 30 ∧
    (calcStats exampleInputs (some 1)).gardenWeekly = 180 ∧
    (calcStats exampleInputs (some 1)).clothingWeekly = 1400 ∧
    (calcStats exampleInputs (some 1)).dietWeekly = 3150 ∧
    (calcStats exampleInputs (some 1)).transportWeekly = 50 ∧
    (calcStats exampleInputs (some 1)).aiWeekly = 2.6 ∧
    (calcStats exampleInputs (some 1)).recyclingWeekly = -25 ∧
    (calcStats exampleInputs (some 1)).compostWeekly = -30 ∧
    (calcStats exampleInputs (some 1)).directTotal = 596.1 ∧
    (calcStats exampleInputs (some 1)).virtualTotal = 4547.6 ∧
    (calcStats exampleInputs (some 1)).grandTotal = 5143.7 ∧
    |(calcStats exampleInputs (some 1)).trend - 22.47| < 1 / 200 ∧
    (calcStats exampleInputs (some 1)).score = 9 := by
  norm_num [calcStats, exampleInputs, householdDivisor, jsRound, abs_lt,
    BASELINE_CANADIAN_WEEKLY, WATER_METRICS.SHOWER_GPM, WATER_METRICS.BATH_GPB,
    WATER_METRICS.FAUCET_GPM, WATER_METRICS.FLUSH_GPF, WATER_METRICS.LAUNDRY_GPL,
    WATER_METRICS.DISHWASHER_GPC, WATER_METRICS.GARDEN_GPM,
    WATER_METRICS.CLOTHING_AVG_GPI, WATER_METRICS.DIET_MEAT_GPM,
    WATER_METRICS.FUEL_GPM, WATER_METRICS.AI_QUERY_GPQ,
    WATER_METRICS.RECYCLING_CREDIT, WATER_METRICS.COMPOST_CREDIT]

/-- C4: the score equals the clamped rounded linear formula in the grand
total, is always an integer in [0, 100], is 100 at a grand total of 1500
and 0 at a grand total of 5500. -/
theorem c4_score_clamp_formula (inputs : WaterUsageMetrics) (h : Option ℚ) :
    (calcStats inputs h).score =
      max 0 (min 100 (jsRound (100 - ((calcStats inputs h).grandTotal - 1500) / 40))) ∧
    0 ≤ (calcStats inputs h).score ∧ (calcStats inputs h).score ≤ 100 ∧
    ((calcStats inputs h).grandTotal = 1500 → (calcStats inputs h).score = 100) ∧
    ((calcStats inputs h).grandTotal = 5500 → (calcStats inputs h).score = 0) := by
  have hform : (calcStats inputs h).score =
      max 0 (min 100 (jsRound (100 - ((calcStats inputs h).grandTotal - 1500) / 40))) := rfl
  refine ⟨hform, ?_, ?_, ?_, ?_⟩
  · rw [hform]; exact le_max_left _ _
  · rw [hform]
    exact max_le (by norm_num) (le_trans (min_le_left _ _) (le_refl _))
  · intro hg
    rw [hform, hg]
    norm_num [jsRound]
  · intro hg
    rw [hform, hg]
    norm_num [jsRound]

/-- C4 witness: an input reaching the ideal grand total of exactly 1500
gallons per week scores 100. -/
theorem c4_score_clamp_formula_witness :
    (calcStats ⟨0, 0, 0, 0, 0, 0, 0, 3, 0, 300, 0, 0, 0⟩ (some 1)).grandTotal = 1500 ∧
    (calcStats ⟨0, 0, 0, 0, 0, 0, 0, 3, 0, 300, 0, 0, 0⟩ (some 1)).score = 100 := by
  have hg : (calcStats ⟨0, 0, 0, 0, 0, 0, 0, 3, 0, 300, 0, 0, 0⟩ (some 1)).grandTotal = 1500 := by
    norm_num [calcStats, householdDivisor, BASELINE_CANADIAN_WEEKLY,
      WATER_METRICS.SHOWER_GPM, WATER_METRICS.BATH_GPB,
      WATER_METRICS.FAUCET_GPM, WATER_METRICS.FLUSH_GPF, WATER_METRICS.LAUNDRY_GPL,
      WATER_METRICS.DISHWASHER_GPC, WATER_METRICS.GARDEN_GPM,
      WATER_METRICS.CLOTHING_AVG_GPI, WATER_METRICS.DIET_MEAT_GPM,
      WATER_METRICS.FUEL_GPM, WATER_METRICS.AI_QUERY_GPQ,
      WATER_METRICS.RECYCLING_CREDIT, WATER_METRICS.COMPOST_CREDIT]
  exact ⟨hg, (c4_score_clamp_formula ⟨0, 0, 0, 0, 0, 0, 0, 3, 0, 300, 0, 0, 0⟩
    (some 1)).2.2.2.1 hg⟩

/-- C7: a missing or non-positive household size yields an effective
divisor of 1; the divisor always equals max(1, householdSize), is at
least 1 and never zero, so the shared categories are genuine divisions by
a positive number. -/
theorem c7_household_divisor (h : Option ℚ) (inputs : WaterUsageMetrics) :
    (h = none → householdDivisor h = 1) ∧
    (∀ x : ℚ, h = some x → x ≤ 0 → householdDivisor h = 1) ∧
    (∀ x : ℚ, h = some x → householdDivisor h = max 1 x) ∧
    1 ≤ householdDivisor h ∧
    householdDivisor h ≠ 0 ∧
    (calcStats inputs h).laundryWeekly * householdDivisor h =
      inputs.laundryLoads * WATER_METRICS.LAUNDRY_GPL ∧
    (calcStats inputs h).dishwasherWeekly * householdDivisor h =
      inputs.dishwasherLoads * WATER_METRICS.DISHWASHER_GPC ∧
    (calcStats inputs h).gardenWeekly * householdDivisor h =
      inputs.gardenMinutes * WATER_METRICS.GARDEN_GPM := by
  have hone : 1 ≤ householdDivisor h := le_max_left _ _
  have hnz : householdDivisor h ≠ 0 := by
    intro h0
    rw [h0] at hone
    norm_num at hone
  refine ⟨?_, ?_, ?_, hone, hnz, ?_, ?_, ?_⟩
  · intro h0
    subst h0
    simp [householdDivisor]
  · intro x hx hle
    subst hx
    simp only [householdDivisor]
    by_cases h0 : x = 0
    · simp [h0]
    · rw [if_neg h0]
      exact max_eq_left (by linarith)
  · intro x hx
    subst hx
    simp only [householdDivisor]
    by_cases h0 : x = 0
    · simp [h0]
    · rw [if_neg h0]
  · exact div_mul_cancel₀ _ hnz
  · exact div_mul_cancel₀ _ hnz
  · exact div_mul_cancel₀ _ hnz

/-- C7 witness: a household size of -2 is coerced to an effective divisor
of 1. -/
theorem c7_household_divisor_witness : householdDivisor (some (-2)) = 1 :=
  (c7_household_divisor (some (-2)) exampleInputs).2.1 (-2) rfl (by norm_num)

/-- C10 witness: a last log date five days in the future resets the
streak to 1. -/
theorem c10_negative_gap_resets_witness :
    calculateStreak (some 5) 0 3 = (1, false) :=
  (c10_negative_gap_resets ⟨0, 0, some 5, 0⟩ 3 5 7 rfl (by decide)).1

/-- A concrete dashboard state used by witnesses: both period logs are
marked submitted and the last streak log was on day 0. -/
def sampleState : DashState :=
  ⟨⟨8, 0, 5, 5⟩, ⟨4, 5, 15, 7, 1, 100, 5, 2, 20⟩, true, true,
    ⟨2, 3, some 0, 10⟩, some 1, 0⟩

/-- C5: the daily window is new exactly when the last update is absent or
its calendar date differs from that of now (so yesterday 23:59 against today
00:01 is new); the weekly window is new exactly when more than seven days
of milliseconds have passed, and an absent last update is never a new
week. -/
theorem c5_isNewPeriod_semantics (lastUpdated : Option ℤ) (now : ℤ) :
    (isNewDay lastUpdated now = true ↔
      lastUpdated = none ∨
        ∃ t, lastUpdated = some t ∧ toLocalDay t ≠ toLocalDay now) ∧
    (isNewWeek lastUpdated now = true ↔
      ∃ t, lastUpdated = some t ∧ oneWeekMs < now - t) ∧
    isNewWeek none now = false ∧
    (∀ D : ℤ, isNewDay (some (D * msPerDay + 86340000))
      ((D + 1) * msPerDay + 60000) = true) := by
  refine ⟨?_, ?_, rfl, ?_⟩
  · cases lastUpdated <;> simp [isNewDay, bne_iff_ne]
  · cases lastUpdated <;> simp [isNewWeek]
  · intro D
    simp only [isNewDay, bne_iff_ne, ne_eq, toLocalDay, msPerDay]
    omega

/-- C8: if either persistence write of a daily or weekly submission
fails, the in-memory state is returned unchanged and the outcome is not
success; success is only reported when both writes succeeded. -/
theorem c8_failed_write_atomicity (st : DashState) (today : ℤ) (w1 w2 : Bool)
    (hfail : w1 = false ∨ w2 = false) :
    (handleDailySubmit st today w1 w2).1 = st ∧
    (handleDailySubmit st today w1 w2).2 ≠ .success ∧
    (handleWeeklySubmit st w1 w2).1 = st ∧
    (handleWeeklySubmit st w1 w2).2 ≠ .success ∧
    (∀ v1 v2 : Bool, (handleDailySubmit st today v1 v2).2 = .success →
      v1 = true ∧ v2 = true) ∧
    (∀ v1 v2 : Bool, (handleWeeklySubmit st v1 v2).2 = .success →
      v1 = true ∧ v2 = true) := by
  have hdany : ∀ v1 v2 : Bool, (v1 = false ∨ v2 = false) →
      handleDailySubmit st today v1 v2 = (st, .duplicate) ∨
      handleDailySubmit st today v1 v2 = (st, .saveFailed) := by
    intro v1 v2 hv
    rcases hrec : recordLog st.streakData today with _ | ns
    · left
      simp [handleDailySubmit, hrec]
    · right
      rcases hv with h | h <;> subst h
      · simp [handleDailySubmit, hrec]
      · cases v1 <;> simp [handleDailySubmit, hrec]
  have hwany : ∀ v1 v2 : Bool, (v1 = false ∨ v2 = false) →
      handleWeeklySubmit st v1 v2 = (st, .saveFailed) := by
    intro v1 v2 hv
    rcases hv with h | h <;> subst h
    · simp [handleWeeklySubmit]
    · cases v1 <;> simp [handleWeeklySubmit]
  refine ⟨?_, ?_, ?_, ?_, ?_, ?_⟩
  · rcases hdany w1 w2 hfail with h | h <;> rw [h]
  · rcases hdany w1 w2 hfail with h | h <;> rw [h] <;> simp
  · rw [hwany w1 w2 hfail]
  · rw [hwany w1 w2 hfail]
    simp
  · intro v1 v2 hv
    cases v1 <;> cases v2
    · rcases hdany false false (Or.inl rfl) with h | h <;> rw [h] at hv <;> simp at hv
    · rcases hdany false true (Or.inl rfl) with h | h <;> rw [h] at hv <;> simp at hv
    · rcases hdany true false (Or.inr rfl) with h | h <;> rw [h] at hv <;> simp at hv
    · exact ⟨rfl, rfl⟩
  · intro v1 v2 hv
    cases v1 <;> cases v2
    · rw [hwany false false (Or.inl rfl)] at hv
      simp at hv
    · rw [hwany false true (Or.inl rfl)] at hv
      simp at hv
    · rw [hwany true false (Or.inr rfl)] at hv
      simp at hv
    · exact ⟨rfl, rfl⟩

/-- C8 witness: a failed first write on a concrete state leaves the state
unchanged. -/
theorem c8_failed_write_atomicity_witness :
    ((false : Bool) = false ∨ (true : Bool) = false) ∧
    (handleDailySubmit sampleState 5 false true).1 = sampleState ∧
    (handleWeeklySubmit sampleState false true).2 ≠ .success := by
  have h := c8_failed_write_atomicity sampleState 5 false true (Or.inl rfl)
  exact ⟨Or.inl rfl, h.1, h.2.2.2.1⟩

/-- C9: editing a daily input resets the daily submitted flag when it was
set and leaves the weekly flag untouched, and symmetrically for weekly
edits. -/
theorem c9_edit_resets_submitted (st : DashState) (f : DailyField)
    (g : WeeklyField) (v w : ℚ) :
    (st.isDailySubmitted = true →
      (handleDailyInputChange st f v).isDailySubmitted = false) ∧
    (handleDailyInputChange st f v).isWeeklySubmitted = st.isWeeklySubmitted ∧
    (st.isWeeklySubmitted = true →
      (handleWeeklyInputChange st g w).isWeeklySubmitted = false) ∧
    (handleWeeklyInputChange st g w).isDailySubmitted = st.isDailySubmitted := by
  refine ⟨?_, rfl, ?_, rfl⟩
  · intro h
    simp [handleDailyInputChange, h]
  · intro h
    simp [handleWeeklyInputChange, h]

/-- C9 witness: editing the bath count of a submitted daily log resets
the daily flag. -/
theorem c9_edit_resets_submitted_witness :
    sampleState.isDailySubmitted = true ∧
    (handleDailyInputChange sampleState .baths 2).isDailySubmitted = false :=
  ⟨rfl, (c9_edit_resets_submitted sampleState .baths .meatMeals 2 3).1 rfl⟩

end FlowState
